import Mathlib

/-!
Shallow embedding of `generate_api_business_content.py`: a documentation
generator that maps an API path/description pair to fixed lists of business
scenario and business rule strings via substring classification over two
static nested tables.

The source file contains several malformed string literals (stray apostrophes
where a closing `**` was intended, e.g. the sixth `auth.common` rule). Per the
design notes, each such template line is embedded as a single string with only
the enclosing quoting repaired and the wording — stray apostrophe included —
preserved verbatim. Apostrophes are written with the `\x27` escape.

Python `str.lower()` is modelled by ASCII case folding; all classification
keywords and inputs of interest are ASCII or CJK (caseless), where the two
agree.
-/

namespace ApiContent

/-- True when `needle` is an initial segment of `hay` (character lists). -/
def listStartsWith : List Char → List Char → Bool
  | [], _ => true
  | _ :: _, [] => false
  | a :: as, b :: bs => a == b && listStartsWith as bs

/-- True when `needle` occurs as a contiguous sublist of `hay`; the empty
needle always occurs. -/
def listHasSub (needle : List Char) : List Char → Bool
  | [] => listStartsWith needle []
  | b :: t => listStartsWith needle (b :: t) || listHasSub needle t

/-- Python membership test `needle in hay` on strings. -/
def hasSub (hay needle : String) : Bool :=
  listHasSub needle.data hay.data

/-- Python `str.lower()` (ASCII case folding; CJK characters are caseless). -/
def pyLower (s : String) : String :=
  ⟨s.data.map Char.toLower⟩

def API_SCENARIOS : List (String × List (String × List String)) := [
  ( "auth", [
    ( "login", [
      "**用户首次注册场景**: 新用户输入手机号和验证码完成注册，系统自动创建账号、积分账户并分配默认角色",
      "**老用户快速登录场景**: 已注册用户使用手机号验证码快速登录，无需记忆复杂密码",
      "**多设备登录场景**: 用户可在多台设备同时登录，系统通过Token管理各设备会话",
      "**安全验证场景**: 系统验证手机号格式和验证码有效性，防止非法登录",
      "**自动初始化场景**: 新用户注册后自动创建积分账户和分配基础权限"
    ]),
    ( "profile", [
      "**个人信息查看场景**: 用户查看自己的基本信息、角色、积分余额等",
      "**信息完整性验证场景**: 检查用户资料是否完整，提示用户补充必要信息",
      "**权限确认场景**: 用户查看自己拥有的角色和权限范围",
      "**账户状态检查场景**: 确认账户是否正常、是否被禁用",
      "**数据同步场景**: 获取最新的用户数据，确保前端显示准确"
    ]),
    ( "verify", [
      "**Token有效性验证场景**: 前端路由守卫验证Token是否过期",
      "**自动刷新Token场景**: Token即将过期时自动使用refreshToken刷新",
      "**安全防护场景**: 防止使用过期或伪造的Token访问系统",
      "**会话保持场景**: 用户操作过程中持续验证登录状态",
      "**异常登出场景**: Token无效时自动跳转登录页面"
    ]),
    ( "refresh", [
      "**Token自动刷新场景**: accessToken过期前使用refreshToken获取新Token",
      "**无感刷新场景**: 后台自动刷新Token，用户无感知",
      "**长时间登录场景**: 用户长时间使用系统，通过刷新机制保持登录",
      "**安全控制场景**: refreshToken过期后强制用户重新登录",
      "**设备管理场景**: 每个设备独立的Token刷新机制"
    ]),
    ( "logout", [
      "**主动退出场景**: 用户点击退出按钮主动退出登录",
      "**清理会话场景\x27: 退出时清理Token和缓存数据",
      "**多设备管理场景**: 用户可选择退出当前设备或所有设备",
      "**安全防护场景**: 退出后立即使Token失效，防止被盗用",
      "**日志记录场景**: 记录用户退出时间和设备信息"
    ])
  ]),
  ( "lottery", [
    ( "draw", [
      "**用户参与抽奖场景**: 用户消耗积分参与指定活动的抽奖",
      "**中奖结果生成场景**: 系统根据概率和保底机制计算抽奖结果",
      "**奖品发放场景**: 中奖后自动将奖品添加到用户库存",
      "**积分扣除场景**: 抽奖成功后扣除相应积分并记录交易",
      "**防重复抽奖场景\x27: 使用幂等性机制防止重复扣费"
    ]),
    ( "history", [
      "**历史记录查询场景**: 用户查看自己的抽奖历史记录",
      "**中奖统计场景**: 展示用户总抽奖次数、中奖次数、中奖率",
      "**奖品分类展示场景**: 按奖品类型、时间等维度展示历史",
      "**管理员审计场景**: 管理员查看用户抽奖记录进行审计",
      "**数据分析场景**: 导出数据进行用户行为分析"
    ]),
    ( "config", [
      "**活动配置查询场景**: 获取抽奖活动的详细配置信息",
      "**前端展示场景**: 前端根据配置展示抽奖界面和规则",
      "**积分消耗提示场景**: 告知用户参与抽奖需要的积分数量",
      "**活动时间判断场景**: 检查活动是否在有效期内",
      "**参与条件验证场景\x27: 检查用户是否满足参与条件"
    ]),
    ( "prizes", [
      "**奖品池展示场景**: 前端显示当前活动的所有奖品",
      "**概率透明场景**: 向用户展示各奖品的中奖概率",
      "**库存提示场景**: 显示各奖品的剩余数量",
      "**吸引参与场景**: 通过奖品展示吸引用户参与",
      "**公平公正场景**: 透明展示奖品配置增加用户信任"
    ])
  ]),
  ( "points", [
    ( "balance", [
      "**积分余额查询场景**: 用户查看当前可用积分数量",
      "**消费前确认场景**: 抽奖或兑换前确认积分是否充足",
      "**积分变动提醒场景**: 积分发生变化后用户查看最新余额",
      "**冻结积分展示场景**: 显示冻结积分和可用积分的区别",
      "**历史累计展示场景\x27: 展示用户历史累计获得的积分总数"
    ]),
    ( "transactions", [
      "**交易记录查询场景**: 用户查看积分收入和支出明细",
      "**对账核验场景**: 用户核对积分变动是否正确",
      "**消费分析场景**: 分析用户积分主要用途和消费习惯",
      "**异常检测场景**: 发现异常交易及时处理",
      "**数据导出场景\x27: 导出交易记录用于个人财务管理"
    ]),
    ( "adjust", [
      "**积分补发场景**: 管理员为用户补发误扣或漏发的积分",
      "**积分扣除场景**: 因违规行为扣除用户积分",
      "**活动奖励场景**: 管理员为参与活动的用户发放奖励积分",
      "**测试调整场景**: 开发测试时调整用户积分",
      "**异常处理场景**: 处理系统错误导致的积分异常"
    ])
  ]),
  ( "inventory", [
    ( "list", [
      "**库存查看场景**: 用户查看自己拥有的所有虚拟物品",
      "**物品分类场景**: 按物品类型、获得时间等分类展示",
      "**物品状态场景**: 显示已使用、未使用、已过期等状态",
      "**快速查找场景**: 通过搜索快速找到特定物品",
      "**管理库存场景**: 用户整理和管理自己的虚拟资产"
    ]),
    ( "use", [
      "**物品使用场景**: 用户消耗库存中的物品",
      "**核销验证场景\x27: 实体商品核销时验证使用权限",
      "**状态更新场景**: 使用后更新物品状态为已使用",
      "**记录留存场景\x27: 保留使用记录便于追溯",
      "**防重复使用场景**: 确保每个物品只能使用一次"
    ]),
    ( "exchange", [
      "**商品兑换场景**: 用户使用积分兑换实体或虚拟商品",
      "**库存检查场景**: 兑换前检查商品库存是否充足",
      "**积分扣除场景**: 兑换成功后扣除相应积分",
      "**订单生成场景**: 创建兑换订单等待管理员审核",
      "**物流信息场景**: 实体商品兑换后填写物流信息"
    ]),
    ( "transfer", [
      "**物品转让场景\x27: 用户将库存物品转让给其他用户",
      "**权限验证场景**: 验证物品是否允许转让",
      "**接收确认场景\x27: 接收方确认接收转让的物品",
      "**记录追溯场景\x27: 记录完整的转让链路",
      "**防作弊场景\x27: 防止通过转让进行积分套利"
    ])
  ]),
  ( "consumption", [
    ( "submit", [
      "**消费记录提交场景**: 商户扫码录入用户消费金额",
      "**QR码验证场景**: 验证用户消费QR码的有效性",
      "**消费凭证场景\x27: 拍照上传消费小票作为凭证",
      "**待审核状态场景**: 提交后进入待审核队列",
      "**通知用户场景**: 提交成功后通知用户等待审核"
    ]),
    ( "approve", [
      "**审核通过场景**: 管理员审核通过消费记录",
      "**积分发放场景**: 审核通过后按比例发放积分",
      "**状态更新场景\x27: 更新记录状态为已通过",
      "**通知用户场景\x27: 通知用户积分已到账",
      "**记录审核日志场景\x27: 记录审核人和审核时间"
    ]),
    ( "reject", [
      "**审核拒绝场景**: 管理员拒绝不符合要求的消费记录",
      "**拒绝原因场景\x27: 填写拒绝原因告知用户",
      "**状态更新场景\x27: 更新记录状态为已拒绝",
      "**用户申诉场景\x27: 用户可针对拒绝结果申诉",
      "**防作弊场景\x27: 拒绝虚假消费记录维护系统公平"
    ])
  ]),
  ( "admin", [
    ( "dashboard", [
      "**数据总览场景**: 管理员查看系统核心数据概况",
      "**实时监控场景**: 监控系统运行状态和关键指标",
      "**趋势分析场景**: 查看用户增长、活跃度等趋势",
      "**异常告警场景\x27: 发现异常数据及时告警",
      "**决策支持场景\x27: 为运营决策提供数据支持"
    ]),
    ( "users", [
      "**用户管理场景**: 管理员查看和管理所有用户",
      "**角色分配场景**: 为用户分配或修改角色权限",
      "**账户状态场景\x27: 启用或禁用用户账户",
      "**用户搜索场景**: 通过手机号、昵称等搜索用户",
      "**批量操作场景\x27: 批量修改用户状态或权限"
    ]),
    ( "config", [
      "**系统配置场景**: 管理员修改系统业务配置",
      "**参数调整场景\x27: 调整抽奖概率、积分比例等参数",
      "**动态生效场景\x27: 配置修改后无需重启即生效",
      "**配置备份场景\x27: 修改前备份配置便于回滚",
      "**权限控制场景\x27: 仅超级管理员可修改核心配置"
    ])
  ])
]

def BUSINESS_RULES : List (String × List (String × List String)) := [
  ( "auth", [
    ( "login", [
      "**手机号格式验证规则**: 必须是11位中国大陆手机号，符合13x/14x/15x/16x/17x/18x/19x开头的格式要求",
      "**验证码验证规则**: 生产环境验证6位数字验证码，开发环境支持万能验证码123456，有效期5分钟",
      "**新用户自动注册规则**: 系统检测到手机号未注册时，自动创建用户账号、积分账户并分配默认角色",
      "**Token生成规则**: 登录成功后生成双Token（accessToken有效期15分钟+refreshToken有效期7天）",
      "**并发登录控制规则**: 同一账号允许多设备同时登录，每个设备使用独立Token",
      "**登录日志记录规则**: 记录每次登录的时间、设备信息、IP地址，便于安全审计"
    ]),
    ( "common", [
      "**权限验证规则**: 验证用户是否拥有访问该API的权限",
      "**Token验证规则**: 验证accessToken的有效性和完整性",
      "**参数校验规则**: 验证所有必需参数的存在性、格式和有效性",
      "**数据一致性规则**: 确保数据库操作的原子性和一致性",
      "**错误处理规则**: 提供清晰的错误信息和错误码",
      "**日志记录规则\x27: 记录关键操作便于审计和问题追溯"
    ])
  ]),
  ( "lottery", [
    ( "draw", [
      "**积分充足验证规则**: 抽奖前验证用户积分是否足够支付抽奖费用",
      "**活动有效性规则**: 验证活动是否在有效期内且状态为进行中",
      "**幂等性控制规则**: 使用唯一请求ID防止重复扣费和重复抽奖",
      "**概率计算规则**: 根据奖品配置的概率和保底机制计算中奖结果",
      "**库存扣减规则\x27: 中奖后立即扣减奖品库存，库存不足时降级到其他奖品",
      "**事务一致性规则**: 积分扣除、奖品发放、记录创建在同一事务中完成"
    ]),
    ( "common", [
      "**活动权限规则**: 验证用户是否有参与该活动的权限",
      "**数据完整性规则**: 查询结果包含所有必要的业务字段",
      "**分页查询规则**: 支持分页查询避免数据量过大",
      "**时间范围规则**: 支持按时间范围筛选数据",
      "**软删除规则**: 删除操作使用软删除保留数据可追溯性",
      "**缓存策略规则**: 高频查询数据使用缓存提升性能"
    ])
  ]),
  ( "points", [
    ( "common", [
      "**权限验证规则**: 用户只能查看自己的数据，管理员可查看所有用户数据",
      "**积分计算规则\x27: 确保积分余额计算准确（可用积分+冻结积分=总积分）",
      "**事务安全规则**: 所有积分变动操作使用数据库事务保证原子性",
      "**幂等性规则\x27: 使用唯一交易ID防止重复扣减或发放积分",
      "**历史记录规则**: 所有积分变动必须记录交易历史便于追溯",
      "**软删除规则**: 交易记录删除使用软删除机制保留数据"
    ])
  ]),
  ( "inventory", [
    ( "common", [
      "**权限验证规则**: 用户只能操作自己的库存物品",
      "**物品状态规则**: 验证物品状态是否允许当前操作（未使用/已使用/已过期）",
      "**库存扣减规则**: 兑换商品时先验证库存充足再扣减库存",
      "**事务一致性规则**: 积分扣除、库存扣减、订单创建在同一事务中完成",
      "**核销码唯一性规则**: 生成的核销码必须全局唯一且难以伪造",
      "**时效性规则\x27: 某些物品有使用期限，过期后自动失效"
    ])
  ]),
  ( "consumption", [
    ( "common", [
      "**角色权限规则**: 商户可提交记录，管理员可审核记录",
      "**QR码验证规则\x27: 验证消费QR码的有效性和时效性（通常5分钟有效）",
      "**金额验证规则**: 验证消费金额的合理性（不能为0或负数）",
      "**审核时效规则**: 记录提交后24小时内完成审核",
      "**积分发放规则\x27: 审核通过后按消费金额*积分比例发放积分",
      "**防重复提交规则\x27: 同一消费凭证不能重复提交"
    ])
  ]),
  ( "admin", [
    ( "common", [
      "**管理员权限规则**: 仅管理员角色（role_level≥100）可访问",
      "**操作日志规则**: 所有管理操作必须记录详细日志",
      "**敏感操作确认规则\x27: 删除、禁用等敏感操作需要二次确认",
      "**批量操作限制规则**: 批量操作限制单次处理数量避免系统过载",
      "**数据导出规则\x27: 支持导出查询结果为Excel便于分析",
      "**权限分级规则**: 不同级别管理员拥有不同的操作权限范围"
    ])
  ])
]

/-- The hardcoded generic default scenario list (else-branch of
`get_scenarios`). -/
def DEFAULT_SCENARIOS : List String := [
  "**功能使用场景**: 用户或管理员使用该功能完成具体业务操作",
  "**数据查询场景**: 查询和获取相关业务数据信息",
  "**权限验证场景**: 系统验证用户权限确保操作合法",
  "**数据处理场景**: 系统处理请求并返回相应结果",
  "**日志记录场景**: 记录操作日志便于审计追踪"]

/-- The hardcoded generic default rule list (else-branch of `get_rules`). -/
def DEFAULT_RULES : List String := [
  "**权限验证规则**: 验证用户是否拥有访问该API的权限",
  "**参数校验规则**: 验证所有必需参数的存在性、格式和有效性",
  "**数据一致性规则**: 确保数据库操作的原子性和一致性",
  "**错误处理规则**: 提供清晰的错误信息和错误码便于问题定位",
  "**日志记录规则**: 记录关键操作便于审计和问题追溯",
  "**性能优化规则**: 优化查询性能避免数据库过载"]

/-- Lookup `get_scenarios(category, api_type)`: the specific entry, else the
category's `common` entry, else the generic default. -/
def get_scenarios (category : String) (api_type : String) : List String :=
  match API_SCENARIOS.lookup category with
  | some types =>
    match types.lookup api_type with
    | some l => l
    | none =>
      match types.lookup "common" with
      | some l => l
      | none => DEFAULT_SCENARIOS
  | none => DEFAULT_SCENARIOS

/-- Lookup `get_rules(category, api_type)`: the specific entry, else the
category's `common` entry, else the generic default. -/
def get_rules (category : String) (api_type : String) : List String :=
  match BUSINESS_RULES.lookup category with
  | some types =>
    match types.lookup api_type with
    | some l => l
    | none =>
      match types.lookup "common" with
      | some l => l
      | none => DEFAULT_RULES
  | none => DEFAULT_RULES

/-- Category classifier `get_api_category(path, description)`: fixed-priority
substring tests over the lower-cased inputs. -/
def get_api_category (path : String) (description : String) : String :=
  let path_lower := pyLower path
  let desc_lower := pyLower description
  if hasSub path_lower "/auth/" || hasSub desc_lower "login" || hasSub desc_lower "token" then "auth"
  else if hasSub path_lower "/lottery/" || hasSub desc_lower "抽奖" then "lottery"
  else if hasSub path_lower "/points/" || hasSub desc_lower "积分" then "points"
  else if hasSub path_lower "/inventory/" || hasSub desc_lower "库存" || hasSub desc_lower "兑换" then "inventory"
  else if hasSub path_lower "/consumption/" || hasSub desc_lower "消费" then "consumption"
  else if hasSub path_lower "/admin/" || hasSub desc_lower "管理" then "admin"
  else "common"

/-- The inline `api_type` if/elif chain of `generate_api_content`, factored
out: fixed-priority keyword tests on the raw (not lower-cased) inputs. -/
def get_api_type (path : String) (description : String) : String :=
  if hasSub path "login" || hasSub description "登录" then "login"
  else if hasSub path "profile" || hasSub description "用户信息" then "profile"
  else if hasSub path "verify" || hasSub description "验证" then "verify"
  else if hasSub path "refresh" || hasSub description "刷新" then "refresh"
  else if hasSub path "logout" || hasSub description "退出" then "logout"
  else if hasSub path "draw" || hasSub description "执行抽奖" then "draw"
  else if hasSub path "history" || hasSub description "历史" then "history"
  else if hasSub path "config" || hasSub description "配置" then "config"
  else if hasSub path "prizes" || hasSub description "奖品" then "prizes"
  else if hasSub path "balance" || hasSub description "余额" then "balance"
  else if hasSub path "transactions" || hasSub description "交易" then "transactions"
  else if hasSub path "adjust" || hasSub description "调整" then "adjust"
  else if hasSub path "use" || hasSub description "使用" then "use"
  else if hasSub path "exchange" || hasSub description "兑换" then "exchange"
  else if hasSub path "transfer" || hasSub description "转让" then "transfer"
  else if hasSub path "submit" || hasSub description "提交" then "submit"
  else if hasSub path "approve" || hasSub description "通过" then "approve"
  else if hasSub path "reject" || hasSub description "拒绝" then "reject"
  else if hasSub path "dashboard" || hasSub description "仪表盘" then "dashboard"
  else if hasSub path "users" || hasSub description "用户管理" then "users"
  else "common"

/-- Resolver entry point `generate_api_content(path, description)`. -/
def generate_api_content (path : String) (description : String) :
    List String × List String :=
  let category := get_api_category path description
  let api_type := get_api_type path description
  (get_scenarios category api_type, get_rules category api_type)

/-- Spec-side view of the category classification: an ordered list of
(key, path keywords, description keywords) evaluated first-match-wins. -/
def CATEGORY_CHAIN : List (String × List String × List String) := [
  ( "auth", ["/auth/"], ["login", "token"]),
  ( "lottery", ["/lottery/"], ["抽奖"]),
  ( "points", ["/points/"], ["积分"]),
  ( "inventory", ["/inventory/"], ["库存", "兑换"]),
  ( "consumption", ["/consumption/"], ["消费"]),
  ( "admin", ["/admin/"], ["管理"])]

/-- Whether one entry of `CATEGORY_CHAIN` matches the (already lower-cased)
path and description. -/
def chainMatch (pl dl : String) (e : String × List String × List String) : Bool :=
  e.2.1.any (fun kw => hasSub pl kw) || e.2.2.any (fun kw => hasSub dl kw)

/-- First-match-wins evaluation of an ordered category chain, defaulting to
"common". -/
def firstCategory : List (String × List String × List String) → String → String → String
  | [], _, _ => "common"
  | e :: t, pl, dl => if chainMatch pl dl e then e.1 else firstCategory t pl dl

/-- Spec-side view of the type classification chain: ordered
(key, path keyword, description phrase) triples, first match wins. -/
def TYPE_CHAIN : List (String × String × String) := [
  ( "login", "login", "登录"),
  ( "profile", "profile", "用户信息"),
  ( "verify", "verify", "验证"),
  ( "refresh", "refresh", "刷新"),
  ( "logout", "logout", "退出"),
  ( "draw", "draw", "执行抽奖"),
  ( "history", "history", "历史"),
  ( "config", "config", "配置"),
  ( "prizes", "prizes", "奖品"),
  ( "balance", "balance", "余额"),
  ( "transactions", "transactions", "交易"),
  ( "adjust", "adjust", "调整"),
  ( "use", "use", "使用"),
  ( "exchange", "exchange", "兑换"),
  ( "transfer", "transfer", "转让"),
  ( "submit", "submit", "提交"),
  ( "approve", "approve", "通过"),
  ( "reject", "reject", "拒绝"),
  ( "dashboard", "dashboard", "仪表盘"),
  ( "users", "users", "用户管理")]

/-- First-match-wins evaluation of an ordered type chain, defaulting to
"common". -/
def firstType : List (String × String × String) → String → String → String
  | [], _, _ => "common"
  | e :: t, p, d => if hasSub p e.2.1 || hasSub d e.2.2 then e.1 else firstType t p d

/-- A template line is well-formed bold markup when it starts with `**` and a
closing `**` occurs later in the line. -/
def isBoldLine (s : String) : Bool :=
  listStartsWith ("**".data) s.data && listHasSub ("**".data) (s.data.drop 2)

end ApiContent

namespace ApiContent

/-- A successful association-list lookup returns one of the stored values. -/
theorem mem_of_lookup {β : Type} {k : String} {v : β} :
    ∀ {l : List (String × β)}, List.lookup k l = some v → v ∈ l.map Prod.snd := by
  intro l
  induction l with
  | nil => intro h; simp [List.lookup] at h
  | cons e t ih =>
    obtain ⟨a, b⟩ := e
    intro h
    simp only [List.lookup] at h
    split at h
    · simp only [Option.some.injEq] at h
      subst h
      simp
    · simpa using Or.inr (by simpa using ih h)

/-- Every scenario list stored in the scenario table has exactly 5 entries. -/
theorem scenario_table_lengths :
    ∀ ts ∈ API_SCENARIOS.map Prod.snd, ∀ l ∈ ts.map Prod.snd, l.length = 5 := by
  decide

/-- Every rule list stored in the rule table has exactly 6 entries. -/
theorem rule_table_lengths :
    ∀ ts ∈ BUSINESS_RULES.map Prod.snd, ∀ l ∈ ts.map Prod.snd, l.length = 6 := by
  decide

/-- Every string stored in the scenario table is non-empty. -/
theorem scenario_table_nonempty :
    ∀ ts ∈ API_SCENARIOS.map Prod.snd, ∀ l ∈ ts.map Prod.snd,
      l.all (fun s => !(s == "")) = true := by
  decide

/-- Every string stored in the rule table is non-empty. -/
theorem rule_table_nonempty :
    ∀ ts ∈ BUSINESS_RULES.map Prod.snd, ∀ l ∈ ts.map Prod.snd,
      l.all (fun s => !(s == "")) = true := by
  decide

/-- Function `get_scenarios` always returns a 5-element list. -/
theorem get_scenarios_length (c t : String) : (get_scenarios c t).length = 5 := by
  unfold get_scenarios
  split
  · next ts h1 =>
    split
    · next l h2 => exact scenario_table_lengths ts (mem_of_lookup h1) l (mem_of_lookup h2)
    · next h2 =>
      split
      · next l h3 => exact scenario_table_lengths ts (mem_of_lookup h1) l (mem_of_lookup h3)
      · next h3 => decide
  · next h1 => decide

/-- Function `get_rules` always returns a 6-element list. -/
theorem get_rules_length (c t : String) : (get_rules c t).length = 6 := by
  unfold get_rules
  split
  · next ts h1 =>
    split
    · next l h2 => exact rule_table_lengths ts (mem_of_lookup h1) l (mem_of_lookup h2)
    · next h2 =>
      split
      · next l h3 => exact rule_table_lengths ts (mem_of_lookup h1) l (mem_of_lookup h3)
      · next h3 => decide
  · next h1 => decide

/-- Function `get_scenarios` never returns an empty string entry. -/
theorem get_scenarios_nonempty (c t : String) :
    (get_scenarios c t).all (fun s => !(s == "")) = true := by
  unfold get_scenarios
  split
  · next ts h1 =>
    split
    · next l h2 => exact scenario_table_nonempty ts (mem_of_lookup h1) l (mem_of_lookup h2)
    · next h2 =>
      split
      · next l h3 => exact scenario_table_nonempty ts (mem_of_lookup h1) l (mem_of_lookup h3)
      · next h3 => decide
  · next h1 => decide

/-- Function `get_rules` never returns an empty string entry. -/
theorem get_rules_nonempty (c t : String) :
    (get_rules c t).all (fun s => !(s == "")) = true := by
  unfold get_rules
  split
  · next ts h1 =>
    split
    · next l h2 => exact rule_table_nonempty ts (mem_of_lookup h1) l (mem_of_lookup h2)
    · next h2 =>
      split
      · next l h3 => exact rule_table_nonempty ts (mem_of_lookup h1) l (mem_of_lookup h3)
      · next h3 => decide
  · next h1 => decide

end ApiContent

namespace ApiContent

/-- The if/elif category chain equals first-match evaluation of the ordered
`CATEGORY_CHAIN` on the lower-cased inputs. -/
theorem get_api_category_eq_chain (p d : String) :
    get_api_category p d = firstCategory CATEGORY_CHAIN (pyLower p) (pyLower d) := by
  simp only [get_api_category, firstCategory, CATEGORY_CHAIN, chainMatch,
    List.any_cons, List.any_nil, Bool.or_false, Bool.or_assoc]

/-- The if/elif type chain equals first-match evaluation of the ordered
`TYPE_CHAIN`. -/
theorem get_api_type_eq_chain (p d : String) :
    get_api_type p d = firstType TYPE_CHAIN p d := by
  rfl

/-- A list that starts with `a ++ b` starts with `a`. -/
theorem listStartsWith_of_append (a b : List Char) :
    ∀ l, listStartsWith (a ++ b) l = true → listStartsWith a l = true := by
  induction a with
  | nil => intro l _; rfl
  | cons x xs ih =>
    intro l h
    cases l with
    | nil => simp [listStartsWith] at h
    | cons y ys =>
      simp only [List.cons_append, listStartsWith, Bool.and_eq_true] at h ⊢
      exact ⟨h.1, ih ys h.2⟩

/-- A list containing `a ++ b` as a contiguous sublist contains `a`. -/
theorem listHasSub_of_append (a b : List Char) :
    ∀ l, listHasSub (a ++ b) l = true → listHasSub a l = true := by
  intro l
  induction l with
  | nil =>
    intro h
    cases a with
    | nil => rfl
    | cons x xs => simp [listHasSub, listStartsWith] at h
  | cons y ys ih =>
    intro h
    simp only [listHasSub, Bool.or_eq_true] at h ⊢
    cases h with
    | inl h => exact Or.inl (listStartsWith_of_append (a) b _ h)
    | inr h => exact Or.inr (ih h)

/-- When some entry of the chain matches, first-match evaluation stops at that
entry or earlier: the result is a key of the prefix or that entry's key. -/
theorem firstType_stops (k pk dk : String) (post : List (String × String × String))
    (p d : String) (hc : (hasSub p pk || hasSub d dk) = true) :
    ∀ pre : List (String × String × String),
      firstType (pre ++ (k, pk, dk) :: post) p d ∈ pre.map Prod.fst ++ [k] := by
  intro pre
  induction pre with
  | nil =>
    simp only [List.nil_append, firstType, hc, if_true, List.map_nil]
    exact List.mem_singleton.mpr rfl
  | cons x xs ih =>
    simp only [List.cons_append, firstType]
    by_cases hx : (hasSub p x.2.1 || hasSub d x.2.2) = true
    · simp [hx]
    · simp only [hx, if_false, List.map_cons, List.cons_append]
      exact List.mem_cons_of_mem _ ih

/-- If first-match evaluation of `pre ++ [(k, pk, dk)]` selects the final key
`k`, and `k` is neither "common" nor a key of `pre`, then the whole prefix
failed to match and the final entry matched. -/
theorem firstType_last (k pk dk : String) (p d : String) :
    ∀ pre : List (String × String × String), (∀ x ∈ pre, x.1 ≠ k) → k ≠ "common" →
      firstType (pre ++ [(k, pk, dk)]) p d = k →
      firstType pre p d = "common" ∧ (hasSub p pk || hasSub d dk) = true := by
  intro pre
  induction pre with
  | nil =>
    intro _ hcom h
    simp only [List.nil_append, firstType] at h
    by_cases hc : (hasSub p pk || hasSub d dk) = true
    · exact ⟨rfl, hc⟩
    · rw [if_neg hc] at h
      exact absurd h.symm hcom
  | cons x xs ih =>
    intro hne hcom h
    simp only [List.cons_append, firstType] at h ⊢
    by_cases hx : (hasSub p x.2.1 || hasSub d x.2.2) = true
    · rw [if_pos hx] at h
      exact absurd h (hne x (List.mem_cons_self x xs))
    · rw [if_neg hx] at h ⊢
      exact ih (fun y hy => hne y (List.mem_cons_of_mem x hy)) hcom h

/-- If first-match evaluation yields "common" and no chain key is "common",
then every entry of the chain failed to match. -/
theorem firstType_common_all (p d : String) :
    ∀ chain : List (String × String × String), (∀ x ∈ chain, x.1 ≠ "common") →
      firstType chain p d = "common" →
      chain.all (fun e => !(hasSub p e.2.1 || hasSub d e.2.2)) = true := by
  intro chain
  induction chain with
  | nil => intro _ _; rfl
  | cons x xs ih =>
    intro hk h
    simp only [firstType] at h
    by_cases hx : (hasSub p x.2.1 || hasSub d x.2.2) = true
    · rw [if_pos hx] at h
      exact absurd h (hk x (List.mem_cons_self x xs))
    · rw [if_neg hx] at h
      have hxs := ih (fun y hy => hk y (List.mem_cons_of_mem x hy)) h
      have hx' : (hasSub p x.2.1 || hasSub d x.2.2) = false := by
        cases hval : (hasSub p x.2.1 || hasSub d x.2.2) with
        | false => rfl
        | true => exact absurd hval hx
      rw [List.all_cons, hx', hxs]
      rfl

/-- A path containing the keyword "users" also contains the keyword "use". -/
theorem hasSub_use_of_users (p : String) (h : hasSub p "users" = true) :
    hasSub p "use" = true := by
  have e : (String.data "users") = String.data "use" ++ ['r', 's'] := by decide
  unfold hasSub at h ⊢
  rw [e] at h
  exact listHasSub_of_append _ _ _ h

end ApiContent

namespace ApiContent

/-- C1 counterexample: the category "auth" is present in `API_SCENARIOS` but
has no "common" type entry there, so the claimed invariant fails for the
scenario table. -/
theorem C1_counterexample :
    (API_SCENARIOS.lookup "auth").isSome = true ∧
    ((API_SCENARIOS.lookup "auth").bind (fun m => m.lookup "common")) = none := by
  decide

/-- C1 (amended): every category present in `BUSINESS_RULES` supplies a
"common" type entry, while no category of `API_SCENARIOS` does — so the
type-level "common" fallback always succeeds for rules and never for
scenarios, whose in-category fallback always reaches the generic default. -/
theorem C1_theorem :
    BUSINESS_RULES.all (fun p => ((p.2.lookup "common")).isSome) = true ∧
    API_SCENARIOS.all (fun p => !((p.2.lookup "common")).isSome) = true := by
  decide

/-- C2 counterexample: there is no "auth"."common" scenario entry, so
`resolve("/api/v4/auth/unknownsuffix", "未知")` returns the generic default
scenario list instead of an "auth.common" ScenarioSet, and the sixth rule
entry is not a well-formed bolded rule name. -/
theorem C2_counterexample :
    ((API_SCENARIOS.lookup "auth").bind (fun m => m.lookup "common")) = none ∧
    (generate_api_content "/api/v4/auth/unknownsuffix" "未知").1 = DEFAULT_SCENARIOS ∧
    isBoldLine (((generate_api_content "/api/v4/auth/unknownsuffix" "未知").2).getD 5 "") = false := by
  decide

/-- C2 (amended): the input classifies as category "auth" and type "common";
the scenario list is the generic default (the scenario table has no
"auth"."common" entry), the rule list is the "auth"."common" RuleSet of 6
entries, of which the first five begin with a bolded rule name and the sixth
is the malformed entry starting with an unclosed bold marker. -/
theorem C2_theorem :
    get_api_category "/api/v4/auth/unknownsuffix" "未知" = "auth" ∧
    get_api_type "/api/v4/auth/unknownsuffix" "未知" = "common" ∧
    (generate_api_content "/api/v4/auth/unknownsuffix" "未知").1 = DEFAULT_SCENARIOS ∧
    ((BUSINESS_RULES.lookup "auth").bind (fun m => m.lookup "common")) =
      some ((generate_api_content "/api/v4/auth/unknownsuffix" "未知").2) ∧
    (generate_api_content "/api/v4/auth/unknownsuffix" "未知").2.length = 6 ∧
    (((generate_api_content "/api/v4/auth/unknownsuffix" "未知").2).take 5).all isBoldLine = true ∧
    listStartsWith (String.data "**日志记录规则\x27") (String.data (((generate_api_content "/api/v4/auth/unknownsuffix" "未知").2).getD 5 "")) = true := by
  decide

/-- C3: for every path and description, the resolver returns exactly 5
scenario strings and 5 or 6 rule strings, all non-empty; it is total. -/
theorem C3_theorem (path description : String) :
    (generate_api_content path description).1.length = 5 ∧
    ((generate_api_content path description).2.length = 5 ∨
      (generate_api_content path description).2.length = 6) ∧
    (generate_api_content path description).1.all (fun s => !(s == "")) = true ∧
    (generate_api_content path description).2.all (fun s => !(s == "")) = true :=
  ⟨get_scenarios_length _ _, Or.inr (get_rules_length _ _),
    get_scenarios_nonempty _ _, get_rules_nonempty _ _⟩

/-- C4: category classification is first-match-wins over the ordered
`CATEGORY_CHAIN` (auth, lottery, points, inventory, consumption, admin), and
in particular "/api/v4/auth/login" with description "积分查询" resolves to
"auth", not "points". -/
theorem C4_theorem :
    (∀ p d : String, get_api_category p d =
      firstCategory CATEGORY_CHAIN (pyLower p) (pyLower d)) ∧
    get_api_category "/api/v4/auth/login" "积分查询" = "auth" ∧
    get_api_category "/api/v4/auth/login" "积分查询" ≠ "points" :=
  ⟨get_api_category_eq_chain, by decide, by decide⟩

/-- C5: the literal auth/login case — first scenario entry and first of the 6
rule entries are the exact strings of the `auth.login` table rows. -/
theorem C5_theorem :
    (generate_api_content "POST /api/v4/auth/login" "用户登录").1.headD "" =
      "**用户首次注册场景**: 新用户输入手机号和验证码完成注册，系统自动创建账号、积分账户并分配默认角色" ∧
    (generate_api_content "POST /api/v4/auth/login" "用户登录").2.length = 6 ∧
    (generate_api_content "POST /api/v4/auth/login" "用户登录").2.headD "" =
      "**手机号格式验证规则**: 必须是11位中国大陆手机号，符合13x/14x/15x/16x/17x/18x/19x开头的格式要求" := by
  decide

/-- C6: the literal lottery/draw case — category "lottery", type "draw",
5 scenario entries and 6 rule entries with the stated first entries. -/
theorem C6_theorem :
    get_api_category "GET /api/v4/lottery/draw" "执行抽奖" = "lottery" ∧
    get_api_type "GET /api/v4/lottery/draw" "执行抽奖" = "draw" ∧
    (generate_api_content "GET /api/v4/lottery/draw" "执行抽奖").1.length = 5 ∧
    (generate_api_content "GET /api/v4/lottery/draw" "执行抽奖").1.headD "" =
      "**用户参与抽奖场景**: 用户消耗积分参与指定活动的抽奖" ∧
    (generate_api_content "GET /api/v4/lottery/draw" "执行抽奖").2.length = 6 ∧
    (generate_api_content "GET /api/v4/lottery/draw" "执行抽奖").2.headD "" =
      "**积分充足验证规则**: 抽奖前验证用户积分是否足够支付抽奖费用" := by
  decide

/-- C7: for "/api/v4/unknown/thing" with description "无关描述" every
category predicate fails, and the resolver returns the generic 5-entry
scenario default and generic 6-entry rule default with the stated first-entry
prefixes. -/
theorem C7_theorem :
    CATEGORY_CHAIN.all
      (fun e => !(chainMatch (pyLower "/api/v4/unknown/thing") (pyLower "无关描述") e)) = true ∧
    get_api_category "/api/v4/unknown/thing" "无关描述" = "common" ∧
    generate_api_content "/api/v4/unknown/thing" "无关描述" = (DEFAULT_SCENARIOS, DEFAULT_RULES) ∧
    DEFAULT_SCENARIOS.length = 5 ∧
    DEFAULT_RULES.length = 6 ∧
    listStartsWith (String.data "**功能使用场景**") (String.data (DEFAULT_SCENARIOS.headD "")) = true ∧
    listStartsWith (String.data "**权限验证规则**") (String.data (DEFAULT_RULES.headD "")) = true := by
  decide

/-- C8: the two tables are probed independently — ("points", "balance") is a
key of the scenario table but not of the rule table, and the resolver returns
the specific `points.balance` ScenarioSet together with the `points.common`
RuleSet for an input classifying to that pair. -/
theorem C8_theorem :
    ((API_SCENARIOS.lookup "points").bind (fun m => m.lookup "balance")).isSome = true ∧
    ((BUSINESS_RULES.lookup "points").bind (fun m => m.lookup "balance")) = none ∧
    ((API_SCENARIOS.lookup "points").bind (fun m => m.lookup "balance")) =
      some ((generate_api_content "GET /api/v4/points/balance" "").1) ∧
    ((BUSINESS_RULES.lookup "points").bind (fun m => m.lookup "common")) =
      some ((generate_api_content "GET /api/v4/points/balance" "").2) := by
  decide

/-- C9 counterexample: the path "login users" contains "users" yet the type
classifier selects "login", not "use" — the claimed universal "selects use"
fails when an earlier keyword also matches. -/
theorem C9_counterexample :
    hasSub "login users" "users" = true ∧
    get_api_type "login users" "" = "login" ∧
    get_api_type "login users" "" ≠ "use" := by
  decide

/-- C9 (amended): type "users" is unreachable through path matching — any
path containing "users" also contains "use", so some earlier branch fires and
the selected type is never "users"; "users" is selected only when the
description contains "用户管理", the path does not contain "users", and no
earlier (keyword, phrase) pair of the chain matches either input. -/
theorem C9_theorem :
    (∀ p d : String, hasSub p "users" = true → get_api_type p d ≠ "users") ∧
    (∀ p d : String, get_api_type p d = "users" →
      hasSub d "用户管理" = true ∧ hasSub p "users" = false ∧
      (TYPE_CHAIN.dropLast).all (fun e => !(hasSub p e.2.1 || hasSub d e.2.2)) = true) := by
  constructor
  · intro p d h
    have hu := hasSub_use_of_users p h
    have hmem := firstType_stops "use" "use" "使用" (TYPE_CHAIN.drop 13) p d
      (by rw [hu]; rfl) (TYPE_CHAIN.take 12)
    rw [(by decide :
      TYPE_CHAIN.take 12 ++ ("use", "use", "使用") :: TYPE_CHAIN.drop 13 = TYPE_CHAIN)] at hmem
    rw [get_api_type_eq_chain]
    intro heq
    rw [heq] at hmem
    exact absurd hmem (by decide)
  · intro p d h
    rw [get_api_type_eq_chain] at h
    rw [(by decide :
      TYPE_CHAIN = TYPE_CHAIN.dropLast ++ [("users", "users", "用户管理")])] at h
    obtain ⟨hcom, hcond⟩ := firstType_last "users" "users" "用户管理" p d
      TYPE_CHAIN.dropLast (by decide) (by decide) h
    have hall := firstType_common_all p d TYPE_CHAIN.dropLast (by decide) hcom
    have huse : (!(hasSub p "use" || hasSub d "使用")) = true :=
      List.all_eq_true.mp hall ("use", "use", "使用") (by decide)
    have hpu : hasSub p "users" = false := by
      cases hc : hasSub p "users" with
      | false => rfl
      | true =>
        rw [hasSub_use_of_users p hc] at huse
        simp at huse
    rw [hpu] at hcond
    simp only [Bool.false_or] at hcond
    exact ⟨hcond, hpu, hall⟩

/-- C9 witness: both halves of the amended statement instantiated at concrete
inputs — "/api/v4/admin/users" contains "users" yet never classifies as type
"users", and ("", "用户管理") does classify as "users" with the stated
side conditions. -/
theorem C9_theorem_witness :
    get_api_type "/api/v4/admin/users" "" ≠ "users" ∧
    (hasSub "用户管理" "用户管理" = true ∧ hasSub "" "users" = false ∧
      (TYPE_CHAIN.dropLast).all (fun e => !(hasSub "" e.2.1 || hasSub "用户管理" e.2.2)) = true) :=
  ⟨C9_theorem.1 "/api/v4/admin/users" "" (by decide),
   C9_theorem.2 "" "用户管理" (by decide)⟩

/-- C10: the rule list returned by the resolver always has exactly 6 entries
(every stored rule list and the generic default have length 6), so the
5-entry case allowed by the spec never occurs. -/
theorem C10_theorem (path description : String) :
    (generate_api_content path description).2.length = 6 ∧
    BUSINESS_RULES.all (fun p => p.2.all (fun q => q.2.length == 6)) = true ∧
    DEFAULT_RULES.length = 6 :=
  ⟨get_rules_length _ _, by decide, by decide⟩

end ApiContent
